import Mathlib

/-!
Verification of the transcript-to-minutes pipeline of `src/app.py`.

The two functions with design content are embedded faithfully:

* `call_gemini_correct_and_structure` (lines 69-104): the Minutes Extractor.
  The Generative Text Backend (`genai.GenerativeModel(...).generate_content`)
  is modelled as an explicit function argument `backend : String → String`
  (prompt to response text), and the number of backend invocations is made
  explicit in the result so that "zero backend calls" is a provable statement.
* `render_mom` (lines 109-114): the Minutes Document Renderer.

Supporting embeddings:

* `PyVal` models the Python values that `json.loads` can produce and that the
  two functions pass around (`None`, booleans, numbers, strings, lists, dicts).
  Numbers are kept as their source lexeme: no component of the program ever
  inspects a numeric value, it only passes them through, so the lexeme is a
  faithful (injective) representation; Python's int/float normalisation
  (e.g. `str(float("1e2")) = "100.0"`) is not reproduced.
* `json_loads` models CPython's `json.loads` (the pure-Python scanner with its
  default arguments, `strict=True`): JSON whitespace, the `NUMBER_RE` regex,
  the `NaN` / `Infinity` / `-Infinity` constants, strings with the standard
  escapes and `\uXXXX` (with surrogate-pair combination), objects with
  last-wins duplicate keys, and the trailing "Extra data" check.  Known
  deliberate deviations, none observable by any claim: recursion depth is
  bounded by fuel (CPython raises `RecursionError` on deep nesting, which the
  caller's bare `except` also turns into the fallback); lone surrogates from
  `\uXXXX` become U+FFFD because Lean chars are Unicode scalar values;
  `int(esc, 16)` leniencies (embedded signs, spaces, underscores, non-ASCII
  digits) are not reproduced.
* `pyStrip` models Python's `str.strip()` (Unicode whitespace set of
  `str.isspace`).
* `pyStr` / `pyRepr` model the f-string formatting `str(value)` that
  `render_mom` applies to the values it gets out of each entry dict; repr of
  exotic strings (non-printable escapes beyond the common ones) is
  approximated, and no claim exercises non-string values.
-/

namespace RispAI

/-- Python values as produced by `json.loads` and consumed by the app:
`None`, `bool`, numbers (kept as their source lexeme, see the file header),
`str`, `list`, and `dict` (association list in insertion order, keys unique). -/
inductive PyVal where
  | none : PyVal
  | bool : Bool → PyVal
  | num : String → PyVal
  | str : String → PyVal
  | list : List PyVal → PyVal
  | dict : List (String × PyVal) → PyVal

/-- The opening brace character, written via its code point. -/
def lbrace : Char := Char.ofNat 123

/-- The closing brace character, written via its code point. -/
def rbrace : Char := Char.ofNat 125

/-- The single-quote character, written via its code point. -/
def squote : Char := Char.ofNat 39

/-- Python `str.isspace` for a single character: the Unicode whitespace set
used by `str.strip()` (ASCII 9-13, 28-31, space, NEL, NBSP, Ogham space mark,
the U+2000 block, line/paragraph separators, narrow NBSP, MMSP, ideographic
space). -/
def pyIsSpace (c : Char) : Bool :=
  decide ((9 ≤ c.toNat ∧ c.toNat ≤ 13) ∨ (28 ≤ c.toNat ∧ c.toNat ≤ 31) ∨
    c.toNat = 32 ∨ c.toNat = 133 ∨ c.toNat = 160 ∨ c.toNat = 5760 ∨
    (8192 ≤ c.toNat ∧ c.toNat ≤ 8202) ∨ c.toNat = 8232 ∨ c.toNat = 8233 ∨
    c.toNat = 8239 ∨ c.toNat = 8287 ∨ c.toNat = 12288)

/-- Python `s.strip()`: remove leading and trailing whitespace characters. -/
def pyStrip (s : String) : String :=
  String.mk (((s.toList.dropWhile pyIsSpace).reverse.dropWhile pyIsSpace).reverse)

/-- JSON whitespace (`json.decoder.WHITESPACE_STR`): space, tab, newline,
carriage return. -/
def jsonWS (c : Char) : Bool :=
  c == ' ' || c == '\t' || c == '\n' || c == '\r'

/-- Skip JSON whitespace (the `_w(s, idx).end()` idiom of `json.decoder`). -/
def skipWS (cs : List Char) : List Char :=
  cs.dropWhile jsonWS

/-- Value of one hexadecimal digit, if any. -/
def hexVal (c : Char) : Option Nat :=
  if '0' ≤ c ∧ c ≤ '9' then some (c.toNat - 48)
  else if 'a' ≤ c ∧ c ≤ 'f' then some (c.toNat - 87)
  else if 'A' ≤ c ∧ c ≤ 'F' then some (c.toNat - 55)
  else Option.none

/-- Value of a four-hex-digit escape (`_decode_uXXXX`), if all digits are valid. -/
def hex4 (c1 c2 c3 c4 : Char) : Option Nat :=
  match hexVal c1, hexVal c2, hexVal c3, hexVal c4 with
  | some a, some b, some c, some d => some (a * 4096 + b * 256 + c * 16 + d)
  | _, _, _, _ => Option.none

/-- The single-character escapes of JSON strings (`json.decoder.BACKSLASH`). -/
def escChar (c : Char) : Option Char :=
  if c = '\"' then some '\"'
  else if c = '\\' then some '\\'
  else if c = '/' then some '/'
  else if c = 'b' then some (Char.ofNat 8)
  else if c = 'f' then some (Char.ofNat 12)
  else if c = 'n' then some '\n'
  else if c = 'r' then some '\r'
  else if c = 't' then some '\t'
  else Option.none

/-- Turn a decoded `\uXXXX` code point into a character.  Lone surrogates
(which Python keeps as such in its strings) are mapped to U+FFFD because Lean
characters are Unicode scalar values; no claim exercises them. -/
def uniChar (n : Nat) : Char :=
  if n.isValidChar then Char.ofNat n else Char.ofNat 0xfffd

/-- Body of a JSON string after the opening quote (`json.decoder.py_scanstring`
with `strict=True`): accumulates characters until the closing quote, rejecting
raw control characters below U+0020 and invalid escapes, combining surrogate
pairs written as two `\uXXXX` escapes.  The fuel argument only serves
termination; every step consumes at least one input character, so fuel equal
to the input length plus one (which the callers pass) is never exhausted. -/
def parseStrAux : Nat → List Char → List Char → Option (String × List Char)
  | 0, _, _ => Option.none
  | Nat.succ _, _, [] => Option.none
  | Nat.succ fuel, acc, c :: rest =>
    if c = '\"' then some (String.mk acc.reverse, rest)
    else if c = '\\' then
      match rest with
      | [] => Option.none
      | e :: rest1 =>
        if e = 'u' then
          match rest1 with
          | h1 :: h2 :: h3 :: h4 :: rest2 =>
            match hex4 h1 h2 h3 h4 with
            | Option.none => Option.none
            | some n =>
              if 0xd800 ≤ n ∧ n ≤ 0xdbff then
                match rest2 with
                | b1 :: u2 :: g1 :: g2 :: g3 :: g4 :: rest3 =>
                  if b1 = '\\' ∧ u2 = 'u' then
                    match hex4 g1 g2 g3 g4 with
                    | Option.none => Option.none
                    | some m =>
                      if 0xdc00 ≤ m ∧ m ≤ 0xdfff then
                        parseStrAux fuel
                          (uniChar (0x10000 + (n - 0xd800) * 0x400 + (m - 0xdc00)) :: acc)
                          rest3
                      else parseStrAux fuel (uniChar n :: acc) rest2
                  else parseStrAux fuel (uniChar n :: acc) rest2
                | b1 :: u2 :: rest3 =>
                  if b1 = '\\' ∧ u2 = 'u' then Option.none
                  else parseStrAux fuel (uniChar n :: acc) (b1 :: u2 :: rest3)
                | rest3 => parseStrAux fuel (uniChar n :: acc) rest3
              else parseStrAux fuel (uniChar n :: acc) rest2
          | _ => Option.none
        else
          match escChar e with
          | some ec => parseStrAux fuel (ec :: acc) rest1
          | Option.none => Option.none
    else if c.toNat < 32 then Option.none
    else parseStrAux fuel (c :: acc) rest

/-- The optional exponent group of `json.scanner.NUMBER_RE`
(`([eE][-+]?\d+)?`): returns the consumed lexeme and the remainder, consuming
nothing when the group does not match. -/
def parseExp (cs : List Char) : List Char × List Char :=
  match cs with
  | e :: rest =>
    if e = 'e' ∨ e = 'E' then
      match rest with
      | s1 :: rest1 =>
        if s1 = '+' ∨ s1 = '-' then
          match rest1 with
          | d :: _ =>
            if d.isDigit then
              (e :: s1 :: rest1.takeWhile Char.isDigit, rest1.dropWhile Char.isDigit)
            else ([], cs)
          | [] => ([], cs)
        else if s1.isDigit then
          (e :: rest.takeWhile Char.isDigit, rest.dropWhile Char.isDigit)
        else ([], cs)
      | [] => ([], cs)
    else ([], cs)
  | [] => ([], cs)

/-- `json.scanner.NUMBER_RE` (`(-?(?:0|[1-9]\d*))(\.\d+)?([eE][-+]?\d+)?`):
returns the matched lexeme and the remainder, or `none` when the regex does
not match at the current position. -/
def parseNumber (cs : List Char) : Option (String × List Char) :=
  let signAndRest : List Char × List Char :=
    match cs with
    | c :: r => if c = '-' then ([c], r) else ([], cs)
    | [] => ([], cs)
  match signAndRest.2 with
  | [] => Option.none
  | c :: r =>
    if c = '0' ∨ ('1' ≤ c ∧ c ≤ '9') then
      let intAndRest : List Char × List Char :=
        if c = '0' then ([c], r)
        else (c :: r.takeWhile Char.isDigit, r.dropWhile Char.isDigit)
      let fracAndRest : List Char × List Char :=
        match intAndRest.2 with
        | p :: d :: rr =>
          if p = '.' ∧ d.isDigit then
            (p :: d :: rr.takeWhile Char.isDigit, rr.dropWhile Char.isDigit)
          else ([], intAndRest.2)
        | _ => ([], intAndRest.2)
      let expAndRest := parseExp fracAndRest.2
      some (String.mk (signAndRest.1 ++ intAndRest.1 ++ fracAndRest.1 ++ expAndRest.1),
        expAndRest.2)
    else Option.none

/-- Insert a key into a Python dict built from a pair list (`dict(pairs)`):
an existing key keeps its position and gets the new value, a new key is
appended. -/
def insertKey : List (String × PyVal) → String → PyVal → List (String × PyVal)
  | [], k, v => [(k, v)]
  | (k0, v0) :: rest, k, v =>
    if k0 = k then (k0, v) :: rest else (k0, v0) :: insertKey rest k v

mutual

/-- One JSON value at the current position (`json.scanner.py_make_scanner`'s
`_scan_once`): string, object, array, the `null` / `true` / `false` literals,
a number per `NUMBER_RE`, or the `NaN` / `Infinity` / `-Infinity` constants.
Fuel only serves termination; see the file header. -/
def scanOnce : Nat → List Char → Option (PyVal × List Char)
  | 0, _ => Option.none
  | Nat.succ fuel, cs =>
    match cs with
    | [] => Option.none
    | c :: rest =>
      if c = '\"' then
        match parseStrAux (rest.length + 1) [] rest with
        | some (s, rest1) => some (PyVal.str s, rest1)
        | Option.none => Option.none
      else if c = lbrace then parseObj fuel (skipWS rest)
      else if c = '[' then parseArr fuel (skipWS rest)
      else if cs.take 4 = ("null").toList then some (PyVal.none, cs.drop 4)
      else if cs.take 4 = ("true").toList then some (PyVal.bool true, cs.drop 4)
      else if cs.take 5 = ("false").toList then some (PyVal.bool false, cs.drop 5)
      else
        match parseNumber cs with
        | some (lex, rest1) => some (PyVal.num lex, rest1)
        | Option.none =>
          if cs.take 3 = ("NaN").toList then some (PyVal.num ("NaN"), cs.drop 3)
          else if cs.take 8 = ("Infinity").toList then
            some (PyVal.num ("Infinity"), cs.drop 8)
          else if cs.take 9 = ("-Infinity").toList then
            some (PyVal.num ("-Infinity"), cs.drop 9)
          else Option.none

/-- Object body after the opening brace and whitespace (`json.decoder.JSONObject`):
either an immediate closing brace (empty dict) or a first key. -/
def parseObj : Nat → List Char → Option (PyVal × List Char)
  | 0, _ => Option.none
  | Nat.succ fuel, cs =>
    match cs with
    | [] => Option.none
    | c :: rest =>
      if c = rbrace then some (PyVal.dict [], rest)
      else if c = '\"' then parseMembers fuel [] (c :: rest)
      else Option.none

/-- Member loop of `json.decoder.JSONObject`: a quoted key, whitespace, a
colon, whitespace, a value, then either a closing brace or a comma followed by
the next key.  Duplicate keys behave like `dict(pairs)`: last value wins, the
key keeps its first position. -/
def parseMembers : Nat → List (String × PyVal) → List Char → Option (PyVal × List Char)
  | 0, _, _ => Option.none
  | Nat.succ fuel, acc, cs =>
    match cs with
    | [] => Option.none
    | c :: rest =>
      if c = '\"' then
        match parseStrAux (rest.length + 1) [] rest with
        | Option.none => Option.none
        | some (key, rest1) =>
          match skipWS rest1 with
          | [] => Option.none
          | c2 :: rest2 =>
            if c2 = ':' then
              match scanOnce fuel (skipWS rest2) with
              | Option.none => Option.none
              | some (v, rest3) =>
                match skipWS rest3 with
                | [] => Option.none
                | c3 :: rest4 =>
                  if c3 = rbrace then some (PyVal.dict (insertKey acc key v), rest4)
                  else if c3 = ',' then
                    parseMembers fuel (insertKey acc key v) (skipWS rest4)
                  else Option.none
            else Option.none
      else Option.none

/-- Array body after the opening bracket and whitespace
(`json.decoder.JSONArray`): either an immediate closing bracket (empty list)
or a first element. -/
def parseArr : Nat → List Char → Option (PyVal × List Char)
  | 0, _ => Option.none
  | Nat.succ fuel, cs =>
    match cs with
    | [] => Option.none
    | c :: rest =>
      if c = ']' then some (PyVal.list [], rest)
      else parseItems fuel [] cs

/-- Element loop of `json.decoder.JSONArray`: a value, then either a closing
bracket or a comma, whitespace, and the next element. -/
def parseItems : Nat → List PyVal → List Char → Option (PyVal × List Char)
  | 0, _, _ => Option.none
  | Nat.succ fuel, acc, cs =>
    match scanOnce fuel cs with
    | Option.none => Option.none
    | some (v, rest) =>
      match skipWS rest with
      | [] => Option.none
      | c :: rest1 =>
        if c = ']' then some (PyVal.list (v :: acc).reverse, rest1)
        else if c = ',' then parseItems fuel (v :: acc) (skipWS rest1)
        else Option.none

end

/-- `json.loads` with default arguments: skip leading JSON whitespace, scan one
value, skip trailing JSON whitespace, and reject any extra data.  Any error the
Python decoder would raise is `Option.none`.  The fuel `3 * length + 3`
suffices for any input: at most three scanner calls are spent per consumed
input character. -/
def json_loads (s : String) : Option PyVal :=
  match scanOnce (3 * s.length + 3) (skipWS s.toList) with
  | some (v, rest) => if skipWS rest = [] then some v else Option.none
  | Option.none => Option.none

/-- Type of the unused `api_config : Dict = None` parameter of
`call_gemini_correct_and_structure` (the caller always passes the default). -/
def ApiConfig : Type := Option (List (String × PyVal))

/-- The f-string prompt of `call_gemini_correct_and_structure`
(src/app.py lines 73-93), with `raw_text` embedded verbatim between the
`---` delimiters.  Literal braces are written via their hex escapes. -/
def buildPrompt (raw_text : String) : String :=
  ("\n") ++
  ("    Anda adalah asisten yang membantu membuat notulen rapat (Minutes of Meeting).\n") ++
  ("    Berikut adalah transkrip rapat:\n") ++
  ("\n") ++
  ("    ---\n") ++
  ("    ") ++ raw_text ++ ("\n") ++
  ("    ---\n") ++
  ("\n") ++
  ("    Tugas Anda:\n") ++
  ("    1. Perbaiki teks agar lebih rapi dan sesuai kaidah bahasa.\n") ++
  ("    2. Ringkas menjadi notulen dengan format JSON:\n") ++
  ("       \x7b\n") ++
  ("         \"corrected\": \"(teks transkrip yang sudah diperbaiki)\",\n") ++
  ("         \"topics\": [\n") ++
  ("           \x7b\"topic\": \"Judul Topik\", \"kesepakatan\": \"Isi kesepakatan\"\x7d,\n") ++
  ("           ...\n") ++
  ("         ]\n") ++
  ("       \x7d\n") ++
  ("\n") ++
  ("    Kembalikan hanya JSON valid tanpa penjelasan tambahan.\n") ++
  ("    ")

/-- `call_gemini_correct_and_structure` (src/app.py lines 69-104).

The Generative Text Backend is the explicit argument
`backend : String → String` (prompt text to `response.text`); the second
component of the result counts how many times the backend is invoked.
Whitespace-only input short-circuits to `{"corrected": "", "topics": []}`
with zero backend calls; otherwise the backend is called once on the prompt,
the response is stripped, and the stripped text is parsed with `json.loads`,
any parse error producing the fallback dict
`{"corrected": raw_text, "topics": [{"topic": "Umum",
"kesepakatan": text_response}]}`.  The parsed value is returned verbatim. -/
def call_gemini_correct_and_structure (raw_text : String) (api_config : ApiConfig)
    (backend : String → String) : PyVal × Nat :=
  if pyStrip raw_text = "" then
    (PyVal.dict [(("corrected"), PyVal.str ("")), (("topics"), PyVal.list [])], 0)
  else
    let prompt := buildPrompt raw_text
    let text_response := pyStrip (backend prompt)
    let parsed :=
      match json_loads text_response with
      | some v => v
      | Option.none =>
        PyVal.dict [(("corrected"), PyVal.str raw_text),
          (("topics"), PyVal.list [PyVal.dict [(("topic"), PyVal.str ("Umum")),
            (("kesepakatan"), PyVal.str text_response)]])]
    (parsed, 1)

/-- Python `t.get(key, default)` on a dict represented as an association list
with unique keys. -/
def pyDictGet (t : List (String × PyVal)) (key : String) (dflt : PyVal) : PyVal :=
  match t with
  | [] => dflt
  | (k, v) :: rest => if k = key then v else pyDictGet rest key dflt

/-- Python `t.get(key)` (no default): `some` value when the key is present. -/
def pyDictFind : List (String × PyVal) → String → Option PyVal
  | [], _ => Option.none
  | (k, v) :: rest, key => if k = key then some v else pyDictFind rest key

/-- Escapes of one character inside Python `repr` of a string (common cases;
see the file header). -/
def reprEscape (q : Char) (c : Char) : List Char :=
  if c = '\\' then ['\\', '\\']
  else if c = q then ['\\', q]
  else if c = '\n' then ['\\', 'n']
  else if c = '\r' then ['\\', 'r']
  else if c = '\t' then ['\\', 't']
  else [c]

/-- Python `repr` of a string: single quotes, unless the string contains a
single quote and no double quote. -/
def reprQuote (s : String) : String :=
  let q := if s.toList.contains squote && !(s.toList.contains '\"') then '\"' else squote
  String.mk ([q] ++ (s.toList.map (reprEscape q)).flatten ++ [q])

mutual

/-- Python `repr` of a value (as used by `str` on containers). -/
def pyRepr : PyVal → String
  | PyVal.none => ("None")
  | PyVal.bool true => ("True")
  | PyVal.bool false => ("False")
  | PyVal.num lex => lex
  | PyVal.str s => reprQuote s
  | PyVal.list vs => ("[") ++ pyReprItems vs ++ ("]")
  | PyVal.dict kvs => String.mk [lbrace] ++ pyReprPairs kvs ++ String.mk [rbrace]

/-- Comma-separated `repr` of list elements. -/
def pyReprItems : List PyVal → String
  | [] => ""
  | [v] => pyRepr v
  | v :: rest => pyRepr v ++ (", ") ++ pyReprItems rest

/-- Comma-separated `repr` of dict entries. -/
def pyReprPairs : List (String × PyVal) → String
  | [] => ""
  | [(k, v)] => reprQuote k ++ (": ") ++ pyRepr v
  | (k, v) :: rest => reprQuote k ++ (": ") ++ pyRepr v ++ (", ") ++ pyReprPairs rest

end

/-- Python `str(value)` as applied by an f-string interpolation: a string
formats as itself, anything else as its `repr` (numbers as their lexeme, see
the file header). -/
def pyStr : PyVal → String
  | PyVal.str s => s
  | PyVal.none => pyRepr PyVal.none
  | PyVal.bool b => pyRepr (PyVal.bool b)
  | PyVal.num lex => pyRepr (PyVal.num lex)
  | PyVal.list vs => pyRepr (PyVal.list vs)
  | PyVal.dict kvs => pyRepr (PyVal.dict kvs)

/-- The loop body of `render_mom` (src/app.py lines 111-113): one numbered
section per entry, `idx` starting at 1 (`enumerate(topics, start=1)`), with
`t.get('topic','(no topic)')` and `t.get('kesepakatan','-')`. -/
def renderSections : Nat → List (List (String × PyVal)) → String
  | _, [] => ""
  | idx, t :: ts =>
    ("## ") ++ toString idx ++ (". ") ++
    pyStr (pyDictGet t ("topic") (PyVal.str ("(no topic)"))) ++ ("\n\n") ++
    ("**Kesepakatan:** ") ++
    pyStr (pyDictGet t ("kesepakatan") (PyVal.str ("-"))) ++ ("\n\n") ++
    renderSections (idx + 1) ts

/-- `render_mom` (src/app.py lines 109-114): the title heading followed by one
numbered section per topic entry. -/
def render_mom (topics : List (List (String × PyVal))) : String :=
  ("# Minutes of Meeting\n\n") ++ renderSections 1 topics

/-- The index-independent part of one rendered section: everything after the
`## {idx}. ` prefix. -/
def sectionBody (t : List (String × PyVal)) : String :=
  pyStr (pyDictGet t ("topic") (PyVal.str ("(no topic)"))) ++ ("\n\n") ++
  ("**Kesepakatan:** ") ++
  pyStr (pyDictGet t ("kesepakatan") (PyVal.str ("-"))) ++ ("\n\n")

/-- Number a list of section bodies starting at the given index. -/
def numberSections : Nat → List String → String
  | _, [] => ""
  | idx, b :: bs => ("## ") ++ toString idx ++ (". ") ++ b ++ numberSections (idx + 1) bs

/-- An entry dict holding an arbitrary subset of the keys `topic` and
`kesepakatan`, each bound to a string. -/
def dictOf : Option String → Option String → List (String × PyVal)
  | Option.none, Option.none => []
  | some t, Option.none => [(("topic"), PyVal.str t)]
  | Option.none, some k => [(("kesepakatan"), PyVal.str k)]
  | some t, some k => [(("topic"), PyVal.str t), (("kesepakatan"), PyVal.str k)]

/-- Substring containment, via contiguous-sublist containment of the
underlying character lists. -/
def containsSub (s p : String) : Prop :=
  p.toList <:+: s.toList

instance (s p : String) : Decidable (containsSub s p) :=
  List.decidableInfix p.toList s.toList

/-- Modelled from the spec's words (refinement target for the shape claim
only; the code itself never checks this): a well-formed `ExtractionResult` is
a dict with a string-valued field `corrected` and a field `topics` holding a
list of TopicEntry dicts, each with string-valued `topic` and `kesepakatan`. -/
def isTopicEntry : PyVal → Bool
  | PyVal.dict kvs =>
    (match pyDictFind kvs ("topic") with
     | some (PyVal.str _) => true
     | _ => false) &&
    (match pyDictFind kvs ("kesepakatan") with
     | some (PyVal.str _) => true
     | _ => false)
  | _ => false

/-- Modelled from the spec's words, see `isTopicEntry`. -/
def wellFormedExtractionResult : PyVal → Bool
  | PyVal.dict kvs =>
    (match pyDictFind kvs ("corrected") with
     | some (PyVal.str _) => true
     | _ => false) &&
    (match pyDictFind kvs ("topics") with
     | some (PyVal.list l) => l.all isTopicEntry
     | _ => false)
  | _ => false

/-! ## Helper lemmas -/

/-- Unfolding of the extractor on whitespace-only input. -/
lemma call_empty_eq (raw : String) (cfg : ApiConfig) (backend : String → String)
    (h : pyStrip raw = "") :
    call_gemini_correct_and_structure raw cfg backend =
      (PyVal.dict [(("corrected"), PyVal.str ("")), (("topics"), PyVal.list [])], 0) := by
  unfold call_gemini_correct_and_structure
  rw [if_pos h]

/-- Unfolding of the extractor's result value on non-whitespace input: the
parsed backend response when it parses, the fallback dict otherwise. -/
lemma call_fst_of_ne (raw : String) (cfg : ApiConfig) (backend : String → String)
    (h : pyStrip raw ≠ "") :
    (call_gemini_correct_and_structure raw cfg backend).1 =
      match json_loads (pyStrip (backend (buildPrompt raw))) with
      | some v => v
      | Option.none =>
        PyVal.dict [(("corrected"), PyVal.str raw),
          (("topics"), PyVal.list [PyVal.dict [(("topic"), PyVal.str ("Umum")),
            (("kesepakatan"), PyVal.str (pyStrip (backend (buildPrompt raw))))]])] := by
  unfold call_gemini_correct_and_structure
  rw [if_neg h]

/-- The extractor performs exactly one backend call on non-whitespace input. -/
lemma call_snd_of_ne (raw : String) (cfg : ApiConfig) (backend : String → String)
    (h : pyStrip raw ≠ "") :
    (call_gemini_correct_and_structure raw cfg backend).2 = 1 := by
  unfold call_gemini_correct_and_structure
  rw [if_neg h]

/-- `toList` distributes over string append. -/
lemma toList_append (s u : String) : (s ++ u).toList = s.toList ++ u.toList := rfl

/-- Substring containment is reflexive. -/
lemma containsSub_refl (p : String) : containsSub p p :=
  ⟨[], [], by simp⟩

/-- Substring containment extends to the right. -/
lemma containsSub_appL (s u p : String) (h : containsSub s p) : containsSub (s ++ u) p := by
  rcases h with ⟨a, b, hab⟩
  exact ⟨a, b ++ u.toList, by rw [toList_append, ← hab]; simp [List.append_assoc]⟩

/-- Substring containment extends to the left. -/
lemma containsSub_appR (s u p : String) (h : containsSub u p) : containsSub (s ++ u) p := by
  rcases h with ⟨a, b, hab⟩
  exact ⟨s.toList ++ a, b, by rw [toList_append, ← hab]; simp [List.append_assoc]⟩

/-- A string contains its own prefix. -/
lemma containsSub_self_app (p u : String) : containsSub (p ++ u) p :=
  containsSub_appL p u p (containsSub_refl p)

/-- A string contains its own suffix. -/
lemma containsSub_app_self (s p : String) : containsSub (s ++ p) p :=
  containsSub_appR s p p (containsSub_refl p)

/-- The renderer loop equals numbering the per-entry section bodies. -/
lemma renderSections_eq (ts : List (List (String × PyVal))) :
    ∀ n, renderSections n ts = numberSections n (ts.map sectionBody) := by
  induction ts with
  | nil => intro n; rfl
  | cons t ts ih =>
    intro n
    simp only [renderSections, List.map, numberSections, ih, sectionBody]
    simp [String.append_assoc]

/-! ## Claim theorems -/

/-- C4: for every input consisting only of whitespace (including the empty
string), `extract` returns `{corrected_transcript: "", topics: []}` and
performs zero calls to the Generative Text Backend (the second component of
the embedded result counts backend invocations). -/
theorem extract_whitespace_shortcircuit (raw : String) (cfg : ApiConfig)
    (backend : String → String) (h : pyStrip raw = "") :
    call_gemini_correct_and_structure raw cfg backend =
      (PyVal.dict [(("corrected"), PyVal.str ("")), (("topics"), PyVal.list [])], 0) :=
  call_empty_eq raw cfg backend h

/-- Witness for C4 at the concrete whitespace input consisting of two spaces,
a tab and a newline, with an arbitrary backend. -/
theorem extract_whitespace_shortcircuit_witness :
    pyStrip ("  \t\n") = "" ∧
    call_gemini_correct_and_structure ("  \t\n") Option.none (fun _ => ("x")) =
      (PyVal.dict [(("corrected"), PyVal.str ("")), (("topics"), PyVal.list [])], 0) :=
  ⟨by decide, extract_whitespace_shortcircuit _ _ _ (by decide)⟩

/-- C9: the extractor's result does not depend on its `api_config` parameter;
the parameter is never read, so the two runs are definitionally equal. -/
theorem extract_ignores_api_config (raw : String) (c1 c2 : ApiConfig)
    (backend : String → String) :
    call_gemini_correct_and_structure raw c1 backend =
      call_gemini_correct_and_structure raw c2 backend := rfl

/-- C1 counterexample: the claim quantifies over every backend response, but
when the backend returns the valid JSON document
`{"corrected": "C", "topics": []}` for the non-whitespace input `"halo"`, the
parsed value is returned verbatim and its `topics` list is empty. -/
theorem extract_topics_can_be_empty :
    pyStrip ("halo") ≠ "" ∧
    (call_gemini_correct_and_structure ("halo") Option.none
      (fun _ => ("\x7b\"corrected\": \"C\", \"topics\": []\x7d"))).1 =
      PyVal.dict [(("corrected"), PyVal.str ("C")), (("topics"), PyVal.list [])] :=
  ⟨by decide, by rfl⟩

/-- C1 (amended): for every non-whitespace `raw_text`, whenever the stripped
backend response is not a syntactically valid JSON document the fallback rule
fires and the `topics` list is non-empty (it holds the single synthesized
entry); when the response parses, the parsed value is returned verbatim and
its `topics` may be empty or absent. -/
theorem extract_topics_nonempty_on_parse_failure (raw : String) (cfg : ApiConfig)
    (backend : String → String) (h : pyStrip raw ≠ "")
    (hp : json_loads (pyStrip (backend (buildPrompt raw))) = Option.none) :
    ∃ entry rest, (call_gemini_correct_and_structure raw cfg backend).1 =
      PyVal.dict [(("corrected"), PyVal.str raw),
        (("topics"), PyVal.list (entry :: rest))] := by
  refine ⟨PyVal.dict [(("topic"), PyVal.str ("Umum")),
    (("kesepakatan"), PyVal.str (pyStrip (backend (buildPrompt raw))))], [], ?_⟩
  rw [call_fst_of_ne raw cfg backend h, hp]

/-- Witness for the amended C1 at the concrete input `"halo"` with a backend
returning the non-JSON text `"garbled!"`. -/
theorem extract_topics_nonempty_on_parse_failure_witness :
    pyStrip ("halo") ≠ "" ∧
    json_loads (pyStrip ((fun _ => ("garbled!")) (buildPrompt ("halo")))) = Option.none ∧
    ∃ entry rest,
      (call_gemini_correct_and_structure ("halo") Option.none (fun _ => ("garbled!"))).1 =
        PyVal.dict [(("corrected"), PyVal.str ("halo")),
          (("topics"), PyVal.list (entry :: rest))] :=
  ⟨by decide, by rfl,
    extract_topics_nonempty_on_parse_failure ("halo") Option.none
      (fun _ => ("garbled!")) (by decide) (by rfl)⟩

/-- C2 counterexample: when the backend returns `"5"` (a valid JSON document)
for the non-whitespace input `"apa"`, `json.loads` succeeds and the extractor
returns the Python integer `5` verbatim, which is not a record with the
`corrected` / `topics` fields. -/
theorem extract_can_return_non_record :
    pyStrip ("apa") ≠ "" ∧
    (call_gemini_correct_and_structure ("apa") Option.none (fun _ => ("5"))).1 =
      PyVal.num ("5") ∧
    wellFormedExtractionResult
      ((call_gemini_correct_and_structure ("apa") Option.none (fun _ => ("5"))).1) = false :=
  ⟨by decide, by rfl, by rfl⟩

/-- C2 (amended): the extractor is total (the embedding returns a value for
every input and backend response, mirroring the bare `except` that absorbs
every parse error), and its result is a well-formed `ExtractionResult` on the
whitespace short-circuit and on every parse failure; on a successful parse the
backend's JSON value is returned verbatim and need not be well-formed. -/
theorem extract_wellformed_on_fallback (raw : String) (cfg : ApiConfig)
    (backend : String → String)
    (h : pyStrip raw = "" ∨ json_loads (pyStrip (backend (buildPrompt raw))) = Option.none) :
    wellFormedExtractionResult ((call_gemini_correct_and_structure raw cfg backend).1) = true := by
  rcases h with h | h
  · rw [call_empty_eq raw cfg backend h]
    rfl
  · by_cases he : pyStrip raw = ""
    · rw [call_empty_eq raw cfg backend he]
      rfl
    · rw [call_fst_of_ne raw cfg backend he, h]
      rfl

/-- Witness for the amended C2 at the concrete input `"apa"` with a backend
returning the non-JSON text `"???"`. -/
theorem extract_wellformed_on_fallback_witness :
    (pyStrip ("apa") = "" ∨
      json_loads (pyStrip ((fun _ => ("???")) (buildPrompt ("apa")))) = Option.none) ∧
    wellFormedExtractionResult
      ((call_gemini_correct_and_structure ("apa") Option.none (fun _ => ("???"))).1) = true :=
  ⟨Or.inr (by rfl),
    extract_wellformed_on_fallback ("apa") Option.none (fun _ => ("???")) (Or.inr (by rfl))⟩

/-- C3 counterexample: the backend's raw response `"oops "` is not valid JSON,
the input `"halo"` is non-whitespace, yet the synthesized fallback entry's
`kesepakatan` is the STRIPPED response `"oops"`, not the entire raw response
`"oops "` the claim requires. -/
theorem fallback_agreement_is_stripped :
    json_loads ("oops ") = Option.none ∧
    pyStrip ("halo") ≠ "" ∧
    (call_gemini_correct_and_structure ("halo") Option.none (fun _ => ("oops "))).1 =
      PyVal.dict [(("corrected"), PyVal.str ("halo")),
        (("topics"), PyVal.list [PyVal.dict [(("topic"), PyVal.str ("Umum")),
          (("kesepakatan"), PyVal.str ("oops"))]])] ∧
    ("oops") ≠ ("oops ") :=
  ⟨by rfl, by decide, by rfl, by decide⟩

/-- C3 (amended): for every non-whitespace `raw_text`, whenever the STRIPPED
backend response is not a syntactically valid JSON document, the extractor
returns `corrected` equal to the original `raw_text` and `topics` equal to
exactly one entry with topic `"Umum"` and `kesepakatan` equal to the stripped
backend response text. -/
theorem extract_fallback_on_invalid_json (raw : String) (cfg : ApiConfig)
    (backend : String → String) (h : pyStrip raw ≠ "")
    (hp : json_loads (pyStrip (backend (buildPrompt raw))) = Option.none) :
    (call_gemini_correct_and_structure raw cfg backend).1 =
      PyVal.dict [(("corrected"), PyVal.str raw),
        (("topics"), PyVal.list [PyVal.dict [(("topic"), PyVal.str ("Umum")),
          (("kesepakatan"), PyVal.str (pyStrip (backend (buildPrompt raw))))]])] := by
  rw [call_fst_of_ne raw cfg backend h, hp]

/-- Witness for the amended C3 at the concrete input `"halo"` with a backend
returning the non-JSON text `"noise here"`. -/
theorem extract_fallback_on_invalid_json_witness :
    pyStrip ("halo") ≠ "" ∧
    json_loads (pyStrip ((fun _ => ("noise here")) (buildPrompt ("halo")))) = Option.none ∧
    (call_gemini_correct_and_structure ("halo") Option.none (fun _ => ("noise here"))).1 =
      PyVal.dict [(("corrected"), PyVal.str ("halo")),
        (("topics"), PyVal.list [PyVal.dict [(("topic"), PyVal.str ("Umum")),
          (("kesepakatan"), PyVal.str (pyStrip ((fun _ => ("noise here")) (buildPrompt ("halo")))))]])] :=
  ⟨by decide, by rfl,
    extract_fallback_on_invalid_json ("halo") Option.none (fun _ => ("noise here"))
      (by decide) (by rfl)⟩

/-- C6: for every non-whitespace input, when the backend response parses as
the JSON document
`{"corrected": C, "topics": [{"topic": T1, "kesepakatan": K1},
{"topic": T2, "kesepakatan": K2}]}`, the extractor returns exactly that value:
corrected `C` and the two topic entries in the backend's order. -/
theorem extract_parse_success_verbatim (raw : String) (cfg : ApiConfig)
    (backend : String → String) (c t1 k1 t2 k2 : String) (h : pyStrip raw ≠ "")
    (hp : json_loads (pyStrip (backend (buildPrompt raw))) =
      some (PyVal.dict [(("corrected"), PyVal.str c),
        (("topics"), PyVal.list [
          PyVal.dict [(("topic"), PyVal.str t1), (("kesepakatan"), PyVal.str k1)],
          PyVal.dict [(("topic"), PyVal.str t2), (("kesepakatan"), PyVal.str k2)]])])) :
    (call_gemini_correct_and_structure raw cfg backend).1 =
      PyVal.dict [(("corrected"), PyVal.str c),
        (("topics"), PyVal.list [
          PyVal.dict [(("topic"), PyVal.str t1), (("kesepakatan"), PyVal.str k1)],
          PyVal.dict [(("topic"), PyVal.str t2), (("kesepakatan"), PyVal.str k2)]])] := by
  rw [call_fst_of_ne raw cfg backend h, hp]

/-- Witness for C6: the concrete two-topic JSON document of the claim parses
and is returned verbatim for the input `"rapat tim"`. -/
theorem extract_parse_success_verbatim_witness :
    pyStrip ("rapat tim") ≠ "" ∧
    json_loads (pyStrip ((fun _ =>
      ("\x7b\"corrected\": \"C\", \"topics\": [\x7b\"topic\": \"T1\", \"kesepakatan\": \"K1\"\x7d, \x7b\"topic\": \"T2\", \"kesepakatan\": \"K2\"\x7d]\x7d"))
      (buildPrompt ("rapat tim")))) =
      some (PyVal.dict [(("corrected"), PyVal.str ("C")),
        (("topics"), PyVal.list [
          PyVal.dict [(("topic"), PyVal.str ("T1")), (("kesepakatan"), PyVal.str ("K1"))],
          PyVal.dict [(("topic"), PyVal.str ("T2")), (("kesepakatan"), PyVal.str ("K2"))]])]) ∧
    (call_gemini_correct_and_structure ("rapat tim") Option.none (fun _ =>
      ("\x7b\"corrected\": \"C\", \"topics\": [\x7b\"topic\": \"T1\", \"kesepakatan\": \"K1\"\x7d, \x7b\"topic\": \"T2\", \"kesepakatan\": \"K2\"\x7d]\x7d"))).1 =
      PyVal.dict [(("corrected"), PyVal.str ("C")),
        (("topics"), PyVal.list [
          PyVal.dict [(("topic"), PyVal.str ("T1")), (("kesepakatan"), PyVal.str ("K1"))],
          PyVal.dict [(("topic"), PyVal.str ("T2")), (("kesepakatan"), PyVal.str ("K2"))]])] :=
  ⟨by decide, by rfl,
    extract_parse_success_verbatim ("rapat tim") Option.none _ ("C") ("T1") ("K1") ("T2") ("K2")
      (by decide) (by rfl)⟩

/-- C5 counterexample: an entry whose `topic` and `kesepakatan` keys are
PRESENT but bound to the empty string renders the empty strings, and neither
the `"(no topic)"` nor the `"-"` placeholder appears anywhere in the
document — `dict.get` only substitutes its default for a missing key. -/
theorem render_empty_values_no_placeholders :
    render_mom [[(("topic"), PyVal.str ("")), (("kesepakatan"), PyVal.str (""))]] =
      ("# Minutes of Meeting\n\n## 1. \n\n**Kesepakatan:** \n\n") ∧
    ¬ containsSub
      (render_mom [[(("topic"), PyVal.str ("")), (("kesepakatan"), PyVal.str (""))]])
      ("(no topic)") ∧
    ¬ containsSub
      (render_mom [[(("topic"), PyVal.str ("")), (("kesepakatan"), PyVal.str (""))]])
      ("-") :=
  ⟨by rfl, by decide, by decide⟩

/-- C5 (amended): a MISSING `topic` key renders as the literal placeholder
`"(no topic)"` and a MISSING `kesepakatan` key as `"-"` — in particular the
entry with both keys absent yields a single section showing both
placeholders — while a key present with an empty-string value renders the
empty string. -/
theorem render_missing_keys_placeholders :
    render_mom [[]] =
      ("# Minutes of Meeting\n\n## 1. (no topic)\n\n**Kesepakatan:** -\n\n") ∧
    render_mom [[(("topic"), PyVal.str (""))]] =
      ("# Minutes of Meeting\n\n## 1. \n\n**Kesepakatan:** -\n\n") ∧
    render_mom [[(("kesepakatan"), PyVal.str (""))]] =
      ("# Minutes of Meeting\n\n## 1. (no topic)\n\n**Kesepakatan:** \n\n") :=
  ⟨by rfl, by rfl, by rfl⟩

/-- C7: `render_mom` is pure and order-preserving.  The first conjunct records
that two calls on the same input agree, which holds definitionally in this
pure embedding (the Lean function has no state or I/O, mirroring the source
loop which only reads its argument); the second decomposes the document into
the title heading followed by the per-entry section bodies numbered 1-based in
exactly the input order; the third states that permuting the input permutes
the section bodies identically (the `## n.` numbers themselves stay attached
to positions, as the decomposition shows). -/
theorem render_mom_pure_and_order_preserving (ts us : List (List (String × PyVal)))
    (h : ts.Perm us) :
    render_mom ts = render_mom ts ∧
    render_mom ts = ("# Minutes of Meeting\n\n") ++ numberSections 1 (ts.map sectionBody) ∧
    (ts.map sectionBody).Perm (us.map sectionBody) :=
  ⟨rfl, by unfold render_mom; rw [renderSections_eq], h.map sectionBody⟩

/-- Witness for C7 at a concrete two-entry list and its transposition. -/
theorem render_mom_pure_and_order_preserving_witness :
    ([[(("topic"), PyVal.str ("A"))], [(("topic"), PyVal.str ("B"))]] :
        List (List (String × PyVal))).Perm
      [[(("topic"), PyVal.str ("B"))], [(("topic"), PyVal.str ("A"))]] ∧
    (render_mom [[(("topic"), PyVal.str ("A"))], [(("topic"), PyVal.str ("B"))]] =
      render_mom [[(("topic"), PyVal.str ("A"))], [(("topic"), PyVal.str ("B"))]] ∧
    render_mom [[(("topic"), PyVal.str ("A"))], [(("topic"), PyVal.str ("B"))]] =
      ("# Minutes of Meeting\n\n") ++ numberSections 1
        (([[(("topic"), PyVal.str ("A"))], [(("topic"), PyVal.str ("B"))]] :
          List (List (String × PyVal))).map sectionBody) ∧
    (([[(("topic"), PyVal.str ("A"))], [(("topic"), PyVal.str ("B"))]] :
        List (List (String × PyVal))).map sectionBody).Perm
      (([[(("topic"), PyVal.str ("B"))], [(("topic"), PyVal.str ("A"))]] :
        List (List (String × PyVal))).map sectionBody)) :=
  ⟨List.Perm.swap _ _ _,
    render_mom_pure_and_order_preserving _ _ (List.Perm.swap _ _ _)⟩

/-- C10: `render_mom` is total on every list of entries mapping an arbitrary
subset of the keys `topic` and `kesepakatan` to strings, and the document
decomposes entrywise: an absent key contributes its placeholder
(`"(no topic)"` / `"-"`, via `Option.getD`), while a present key contributes
its value verbatim — in particular a key bound to the empty string contributes
the empty string, not the placeholder. -/
theorem render_mom_total_with_placeholders (ts : List (Option String × Option String)) :
    render_mom (ts.map (fun p => dictOf p.1 p.2)) =
      ("# Minutes of Meeting\n\n") ++ numberSections 1 (ts.map (fun p =>
        (p.1.getD ("(no topic)")) ++ ("\n\n") ++ ("**Kesepakatan:** ") ++
          (p.2.getD ("-")) ++ ("\n\n"))) := by
  unfold render_mom
  rw [renderSections_eq, List.map_map]
  congr 2
  apply List.map_congr_left
  intro p _
  rcases p with ⟨a, b⟩
  cases a <;> cases b <;> rfl

/-- C8: end to end, for the non-empty input `"halo ini rapat"`, when the
backend response parses as a JSON document with a corrected string and exactly
one topic entry (topic `t`, kesepakatan `k`), the extractor returns that
document verbatim and rendering its single topic entry yields a document
containing the heading `# Minutes of Meeting`, the section header `## 1. `
followed by the topic, and a line containing `**Kesepakatan:** ` followed by
the agreement. -/
theorem extract_render_end_to_end (cfg : ApiConfig) (backend : String → String)
    (c t k : String)
    (hp : json_loads (pyStrip (backend (buildPrompt ("halo ini rapat")))) =
      some (PyVal.dict [(("corrected"), PyVal.str c),
        (("topics"), PyVal.list [PyVal.dict [(("topic"), PyVal.str t),
          (("kesepakatan"), PyVal.str k)]])])) :
    (call_gemini_correct_and_structure ("halo ini rapat") cfg backend).1 =
      PyVal.dict [(("corrected"), PyVal.str c),
        (("topics"), PyVal.list [PyVal.dict [(("topic"), PyVal.str t),
          (("kesepakatan"), PyVal.str k)]])] ∧
    containsSub (render_mom [[(("topic"), PyVal.str t), (("kesepakatan"), PyVal.str k)]])
      ("# Minutes of Meeting") ∧
    containsSub (render_mom [[(("topic"), PyVal.str t), (("kesepakatan"), PyVal.str k)]])
      (("## 1. ") ++ t) ∧
    containsSub (render_mom [[(("topic"), PyVal.str t), (("kesepakatan"), PyVal.str k)]])
      (("**Kesepakatan:** ") ++ k) := by
  have h0 : render_mom [[(("topic"), PyVal.str t), (("kesepakatan"), PyVal.str k)]] =
      ("# Minutes of Meeting\n\n## 1. ") ++ t ++ ("\n\n") ++ ("**Kesepakatan:** ") ++ k ++
        ("\n\n") ++ ("") := rfl
  refine ⟨?_, ?_, ?_, ?_⟩
  · rw [call_fst_of_ne ("halo ini rapat") cfg backend (by decide), hp]
  · rw [h0]
    apply containsSub_appL
    apply containsSub_appL
    apply containsSub_appL
    apply containsSub_appL
    apply containsSub_appL
    apply containsSub_appL
    exact containsSub_self_app ("# Minutes of Meeting") ("\n\n## 1. ")
  · rw [h0]
    apply containsSub_appL
    apply containsSub_appL
    apply containsSub_appL
    apply containsSub_appL
    apply containsSub_appL
    exact containsSub_appR ("# Minutes of Meeting\n\n") (("## 1. ") ++ t) _
      (containsSub_refl _)
  · rw [h0]
    apply containsSub_appL
    apply containsSub_appL
    rw [String.append_assoc
      ((("# Minutes of Meeting\n\n## 1. ") ++ t) ++ ("\n\n")) ("**Kesepakatan:** ") k]
    exact containsSub_app_self _ _

/-- Witness for C8 at a concrete backend response with topic `"Anggaran"` and
agreement `"Disetujui"`. -/
theorem extract_render_end_to_end_witness :
    json_loads (pyStrip ((fun _ =>
      ("\x7b\"corrected\": \"Rapat dibuka.\", \"topics\": [\x7b\"topic\": \"Anggaran\", \"kesepakatan\": \"Disetujui\"\x7d]\x7d"))
      (buildPrompt ("halo ini rapat")))) =
      some (PyVal.dict [(("corrected"), PyVal.str ("Rapat dibuka.")),
        (("topics"), PyVal.list [PyVal.dict [(("topic"), PyVal.str ("Anggaran")),
          (("kesepakatan"), PyVal.str ("Disetujui"))]])]) ∧
    ((call_gemini_correct_and_structure ("halo ini rapat") Option.none (fun _ =>
      ("\x7b\"corrected\": \"Rapat dibuka.\", \"topics\": [\x7b\"topic\": \"Anggaran\", \"kesepakatan\": \"Disetujui\"\x7d]\x7d"))).1 =
      PyVal.dict [(("corrected"), PyVal.str ("Rapat dibuka.")),
        (("topics"), PyVal.list [PyVal.dict [(("topic"), PyVal.str ("Anggaran")),
          (("kesepakatan"), PyVal.str ("Disetujui"))]])] ∧
    containsSub (render_mom [[(("topic"), PyVal.str ("Anggaran")),
        (("kesepakatan"), PyVal.str ("Disetujui"))]]) ("# Minutes of Meeting") ∧
    containsSub (render_mom [[(("topic"), PyVal.str ("Anggaran")),
        (("kesepakatan"), PyVal.str ("Disetujui"))]]) (("## 1. ") ++ ("Anggaran")) ∧
    containsSub (render_mom [[(("topic"), PyVal.str ("Anggaran")),
        (("kesepakatan"), PyVal.str ("Disetujui"))]]) (("**Kesepakatan:** ") ++ ("Disetujui"))) :=
  ⟨by rfl,
    extract_render_end_to_end Option.none _ ("Rapat dibuka.") ("Anggaran") ("Disetujui")
      (by rfl)⟩

end RispAI
